import Mathlib

/-!
Verification of the BLE heart-rate peripheral firmware (src/main.cpp).

The firmware keeps three GATT services (device information, battery,
heart rate).  A one-second ticker runs periodicCallback, which toggles
an LED and, while a central is connected, advances two sawtooth
counters (battery level, heart-rate measurement) and pushes their
values to the stack.  GAP callbacks handle timeout, connection,
disconnection and notification-subscription events.

The embedding below transcribes the firmware state and every handler
from the source.  Machine integers (uint8_t) are modelled as Nat with
explicit reduction modulo 256 where the source increments them.
Stack-side state that the firmware queries (the connected flag of
getGapState, the notification-subscription flag) is carried in the
same state record, mutated only by the stack events that own it.
Characteristic handles are stack-assigned and distinct per
characteristic, so stored values are indexed by characteristic
identity; the one handler that receives a raw handle argument
(updatesEnabledCallback / updatesDisabledCallback) keeps the numeric
comparison against the heart-rate-measurement handle, taken as a
parameter.  The DEBUG macro is modelled as emitting a log action.
-/

namespace BLEHeartRate

/-- The four characteristics created in src/main.cpp (battLevel,
hrmRate, hrmLocation, deviceManufacturer). -/
inductive CharId where
  | battLevel
  | hrmRate
  | hrmLocation
  | deviceManufacturer
deriving DecidableEq, Repr

/-- The three services created in src/main.cpp. -/
inductive ServiceId where
  | deviceInformation
  | battery
  | heartRate
deriving DecidableEq, Repr

/-- Stack-side stored value of each characteristic, written through
updateCharacteristicValue. -/
structure GattTable where
  battLevelVal : List Nat
  hrmRateVal : List Nat
  hrmLocationVal : List Nat
  deviceManufacturerVal : List Nat
deriving DecidableEq, Repr

/-- Effect of updateCharacteristicValue on the stored table. -/
def GattTable.write (t : GattTable) (c : CharId) (bytes : List Nat) : GattTable :=
  match c with
  | .battLevel => { t with battLevelVal := bytes }
  | .hrmRate => { t with hrmRateVal := bytes }
  | .hrmLocation => { t with hrmLocationVal := bytes }
  | .deviceManufacturer => { t with deviceManufacturerVal := bytes }

/-- Whole-system state: firmware globals (led1, batt, the static
hrmCounter) plus the stack-side state the firmware reads (connected
flag of getGapState, notification-subscription flag for the heart-rate
measurement characteristic) and the stored characteristic values. -/
structure SysState where
  led1 : Bool
  batt : Nat
  hrmCounter : Nat
  connected : Bool
  hrmNotify : Bool
  gatt : GattTable
deriving DecidableEq, Repr

/-- The DEBUG messages the handlers can emit. -/
inductive LogMsg where
  | advertisingTimeout
  | connectedMsg
  | disconnectedMsg
  | restartingAdvertising
  | heartRateNotifyEnabled
  | heartRateNotifyDisabled
deriving DecidableEq, Repr

/-- Calls a handler issues to the stack (plus DEBUG output). -/
inductive StackAction where
  | startAdvertising
  | updateChar (c : CharId) (bytes : List Nat)
  | log (m : LogMsg)
deriving DecidableEq, Repr

/-- True on characteristic-update requests. -/
def StackAction.isCharUpdate : StackAction → Bool
  | .updateChar _ _ => true
  | _ => false

/-- True on DEBUG output actions. -/
def StackAction.isLog : StackAction → Bool
  | .log _ => true
  | _ => false

/-- One uint8_t step of the battery counter: batt++ followed by
if (batt > 100) batt = 72 (src/main.cpp lines 116-119). -/
def battStep (b : Nat) : Nat :=
  if (b + 1) % 256 > 100 then 72 else (b + 1) % 256

/-- One uint8_t step of the heart-rate counter: hrmCounter++ followed
by if (hrmCounter == 175) hrmCounter = 100 (src/main.cpp lines 126-129). -/
def hrmStep (h : Nat) : Nat :=
  if (h + 1) % 256 = 175 then 100 else (h + 1) % 256

/-- periodicCallback (src/main.cpp lines 110-133): toggle led1; if
connected, advance batt and push it, then advance hrmCounter and push
the two-byte measurement {0x00, hrmCounter}. -/
def periodicCallback (s : SysState) : SysState × List StackAction :=
  let s1 := { s with led1 := !s.led1 }
  if s1.connected then
    let newBatt := battStep s1.batt
    let newHrm := hrmStep s1.hrmCounter
    let bpm := [0, newHrm]
    ({ s1 with
        batt := newBatt
        hrmCounter := newHrm
        gatt := (s1.gatt.write .battLevel [newBatt]).write .hrmRate bpm },
     [.updateChar .battLevel [newBatt], .updateChar .hrmRate bpm])
  else
    (s1, [])

/-- timeoutCallback (src/main.cpp lines 73-78): DEBUG only, no
restart of advertising. -/
def timeoutCallback : List StackAction :=
  [.log .advertisingTimeout]

/-- connectionCallback (src/main.cpp lines 80-83): DEBUG only. -/
def connectionCallback : List StackAction :=
  [.log .connectedMsg]

/-- disconnectionCallback (src/main.cpp lines 85-90): two DEBUG lines,
then ble.startAdvertising(). -/
def disconnectionCallback : List StackAction :=
  [.log .disconnectedMsg, .log .restartingAdvertising, .startAdvertising]

/-- updatesEnabledCallback (src/main.cpp lines 92-97): DEBUG when the
handle matches hrmRate.getHandle(), nothing otherwise. -/
def updatesEnabledCallback (hrmRateHandle charHandle : Nat) : List StackAction :=
  if charHandle = hrmRateHandle then [.log .heartRateNotifyEnabled] else []

/-- updatesDisabledCallback (src/main.cpp lines 99-104): DEBUG when
the handle matches hrmRate.getHandle(), nothing otherwise. -/
def updatesDisabledCallback (hrmRateHandle charHandle : Nat) : List StackAction :=
  if charHandle = hrmRateHandle then [.log .heartRateNotifyDisabled] else []

/-- The asynchronous events delivered to the firmware: the one-second
tick and the stack events that invoke the registered callbacks. -/
inductive Event where
  | tick
  | connect
  | disconnect
  | advTimeout
  | notifyEnabled (charHandle : Nat)
  | notifyDisabled (charHandle : Nat)
deriving DecidableEq, Repr

/-- Dispatch of one event.  The stack owns the connected flag and the
subscription flag: it flips them on the corresponding events and then
invokes the registered firmware callback, whose body is transcribed
above.  hrmRateHandle is the stack-assigned handle of the heart-rate
measurement characteristic. -/
def handleEvent (hrmRateHandle : Nat) : Event → SysState → SysState × List StackAction
  | .tick, s => periodicCallback s
  | .connect, s => ({ s with connected := true }, connectionCallback)
  | .disconnect, s => ({ s with connected := false }, disconnectionCallback)
  | .advTimeout, s => (s, timeoutCallback)
  | .notifyEnabled h, s =>
      ({ s with hrmNotify := if h = hrmRateHandle then true else s.hrmNotify },
       updatesEnabledCallback hrmRateHandle h)
  | .notifyDisabled h, s =>
      ({ s with hrmNotify := if h = hrmRateHandle then false else s.hrmNotify },
       updatesDisabledCallback hrmRateHandle h)

/-- Run a sequence of events, accumulating the stack-call trace. -/
def runEvents (hrmRateHandle : Nat) : List Event → SysState → SysState × List StackAction
  | [], s => (s, [])
  | e :: es, s =>
      let r1 := handleEvent hrmRateHandle e s
      let r2 := runEvents hrmRateHandle es r1.1
      (r2.1, r1.2 ++ r2.2)

/-- n consecutive ticks (state part only). -/
def ticks : Nat → SysState → SysState
  | 0, s => s
  | n + 1, s => (periodicCallback (ticks n s)).1

/-- The advertising-data element types accumulated in main. -/
inductive AdvElement where
  | bredrNotSupported
  | completeList16bitServiceIds
  | heartRateSensorHeartRateBelt
deriving DecidableEq, Repr

/-- The stack calls issued during startup (main, src/main.cpp lines
135-177), in program order. -/
inductive SetupCall where
  | attachTicker (periodSeconds : Nat)
  | registerHandlers
  | bleInit
  | accumulateAdvertisingPayload (e : AdvElement)
  | setAdvertisingType
  | setAdvertisingInterval (n : Nat)
  | startAdvertising
  | addService (s : ServiceId)
  | updateCharacteristicValue (c : CharId) (bytes : List Nat)
deriving DecidableEq, Repr

/-- The startup sequence of main, transcribed call by call from
src/main.cpp lines 135-177.  The deviceName bytes are the ASCII codes
of mbed; 0x03 is the finger body-sensor location. -/
def mainSetupCalls : List SetupCall :=
  [ .attachTicker 1
  , .registerHandlers
  , .bleInit
  , .accumulateAdvertisingPayload .bredrNotSupported
  , .accumulateAdvertisingPayload .completeList16bitServiceIds
  , .accumulateAdvertisingPayload .heartRateSensorHeartRateBelt
  , .setAdvertisingType
  , .setAdvertisingInterval 160
  , .startAdvertising
  , .addService .deviceInformation
  , .updateCharacteristicValue .deviceManufacturer [109, 98, 101, 100]
  , .addService .battery
  , .updateCharacteristicValue .battLevel [72]
  , .addService .heartRate
  , .updateCharacteristicValue .hrmLocation [3] ]

/-- The service bound by an addService call, if any. -/
def SetupCall.serviceOf : SetupCall → Option ServiceId
  | .addService s => some s
  | _ => none

/-- True on addService calls. -/
def SetupCall.isAddService : SetupCall → Bool
  | .addService _ => true
  | _ => false

/-- True on calls that configure the advertising payload
(accumulateAdvertisingPayload). -/
def SetupCall.isPayloadConfig : SetupCall → Bool
  | .accumulateAdvertisingPayload _ => true
  | _ => false

/-- True on the startAdvertising call. -/
def SetupCall.isStartAdv : SetupCall → Bool
  | .startAdvertising => true
  | _ => false

/-- True on updateCharacteristicValue calls targeting the
body-sensor-location characteristic. -/
def SetupCall.isHrmLocationWrite : SetupCall → Bool
  | .updateCharacteristicValue .hrmLocation _ => true
  | _ => false

/-- allPrecede p q calls holds when every p-call in the list occurs
strictly before every q-call: after the first q-call no p-call
remains. -/
def allPrecede (p q : SetupCall → Bool) (calls : List SetupCall) : Bool :=
  (calls.dropWhile (fun c => !(q c))).all (fun c => !(p c))

/-- A concrete post-setup state with a central connected: counters at
their initial values (batt = 72 from line 36, hrmCounter = 100 from
line 125), stored values as main leaves them. -/
def sampleConnectedState : SysState :=
  { led1 := true
    batt := 72
    hrmCounter := 100
    connected := true
    hrmNotify := false
    gatt :=
      { battLevelVal := [72]
        hrmRateVal := [0, 0]
        hrmLocationVal := [3]
        deviceManufacturerVal := [109, 98, 101, 100] } }

/-- The same state with no central connected. -/
def sampleDisconnectedState : SysState :=
  { sampleConnectedState with connected := false }

/-! ### Helper lemmas -/

theorem battStep_sawtooth (n : Nat) :
    battStep (72 + n % 29) = 72 + (n + 1) % 29 := by
  unfold battStep
  split <;> omega

theorem hrmStep_sawtooth (n : Nat) :
    hrmStep (100 + n % 75) = 100 + (n + 1) % 75 := by
  unfold hrmStep
  split <;> omega

theorem periodicCallback_connected (s : SysState) (hc : s.connected = true) :
    periodicCallback s =
      ({ s with
          led1 := !s.led1
          batt := battStep s.batt
          hrmCounter := hrmStep s.hrmCounter
          gatt := (s.gatt.write .battLevel [battStep s.batt]).write
                    .hrmRate [0, hrmStep s.hrmCounter] },
       [.updateChar .battLevel [battStep s.batt],
        .updateChar .hrmRate [0, hrmStep s.hrmCounter]]) := by
  unfold periodicCallback
  simp [hc]

theorem periodicCallback_disconnected (s : SysState) (hc : s.connected = false) :
    periodicCallback s = ({ s with led1 := !s.led1 }, []) := by
  unfold periodicCallback
  simp [hc]

theorem ticks_batt (s : SysState) (hc : s.connected = true) (hb : s.batt = 72) :
    ∀ n : Nat,
      (ticks n s).connected = true ∧
      (ticks n s).batt = 72 + n % 29 ∧
      (0 < n → (ticks n s).gatt.battLevelVal = [72 + n % 29]) := by
  intro n
  induction n with
  | zero => simpa [ticks] using ⟨hc, hb⟩
  | succ n ih =>
    obtain ⟨ihc, ihb, _⟩ := ih
    rw [ticks, periodicCallback_connected _ ihc]
    refine ⟨ihc, ?_, fun _ => ?_⟩
    · simp [ihb, battStep_sawtooth]
    · simp [GattTable.write, ihb, battStep_sawtooth]

theorem ticks_hrm (s : SysState) (hc : s.connected = true)
    (hh : s.hrmCounter = 100) :
    ∀ n : Nat,
      (ticks n s).connected = true ∧
      (ticks n s).hrmCounter = 100 + n % 75 ∧
      (0 < n → (ticks n s).gatt.hrmRateVal = [0, 100 + n % 75]) := by
  intro n
  induction n with
  | zero => simpa [ticks] using ⟨hc, hh⟩
  | succ n ih =>
    obtain ⟨ihc, ihh, _⟩ := ih
    rw [ticks, periodicCallback_connected _ ihc]
    refine ⟨ihc, ?_, fun _ => ?_⟩
    · simp [ihh, hrmStep_sawtooth]
    · simp [GattTable.write, ihh, hrmStep_sawtooth]

/-! ### Claim theorems -/

/-- Claim C1: after n ticks with a central connected throughout, the
battery-level counter equals 72 + (n mod 29), and for n > 0 that is
exactly the single byte last written for the battery-level
characteristic: the value starts at 72, increments once per connected
tick, and wraps back to 72 instead of exceeding 100. -/
theorem battery_sawtooth (s : SysState) (hc : s.connected = true)
    (hb : s.batt = 72) (n : Nat) (hn : 0 < n) :
    (ticks n s).batt = 72 + n % 29 ∧
    (ticks n s).gatt.battLevelVal = [72 + n % 29] :=
  ⟨(ticks_batt s hc hb n).2.1, (ticks_batt s hc hb n).2.2 hn⟩

/-- Witness for C1 at n = 30 on a concrete connected state. -/
theorem battery_sawtooth_witness :
    (ticks 30 sampleConnectedState).batt = 72 + 30 % 29 ∧
    (ticks 30 sampleConnectedState).gatt.battLevelVal = [72 + 30 % 29] :=
  battery_sawtooth sampleConnectedState rfl rfl 30 (by decide)

/-- Claim C2: after n ticks with a central connected throughout, the
heart-rate counter equals 100 + (n mod 75) (floor 100, exclusive
ceiling 175), and for n > 0 the two-byte value last written for the
heart-rate-measurement characteristic is [0x00, counter]. -/
theorem heart_rate_sawtooth (s : SysState) (hc : s.connected = true)
    (hh : s.hrmCounter = 100) (n : Nat) (hn : 0 < n) :
    (ticks n s).hrmCounter = 100 + n % 75 ∧
    (ticks n s).gatt.hrmRateVal = [0, (ticks n s).hrmCounter] := by
  obtain ⟨-, h1, h2⟩ := ticks_hrm s hc hh n
  exact ⟨h1, by rw [h1]; exact h2 hn⟩

/-- Witness for C2 at n = 75 on a concrete connected state. -/
theorem heart_rate_sawtooth_witness :
    (ticks 75 sampleConnectedState).hrmCounter = 100 + 75 % 75 ∧
    (ticks 75 sampleConnectedState).gatt.hrmRateVal =
      [0, (ticks 75 sampleConnectedState).hrmCounter] :=
  heart_rate_sawtooth sampleConnectedState rfl rfl 75 (by decide)

/-- Claim C3: a run of n ticks with no central connected leaves the
battery counter, the heart-rate counter and every stored
characteristic value unchanged, and issues no stack call at all on
those ticks (the handler only toggles the LED). -/
theorem disconnected_ticks_frame (hrh n : Nat) (s : SysState)
    (hc : s.connected = false) :
    (runEvents hrh (List.replicate n .tick) s).1.batt = s.batt ∧
    (runEvents hrh (List.replicate n .tick) s).1.hrmCounter = s.hrmCounter ∧
    (runEvents hrh (List.replicate n .tick) s).1.gatt = s.gatt ∧
    (runEvents hrh (List.replicate n .tick) s).2 = [] := by
  induction n generalizing s with
  | zero => simp [runEvents]
  | succ n ih =>
    rw [List.replicate_succ]
    have hstep : handleEvent hrh .tick s = ({ s with led1 := !s.led1 }, []) :=
      periodicCallback_disconnected s hc
    have ih2 := ih { s with led1 := !s.led1 } hc
    simp only [runEvents, hstep]
    exact ⟨ih2.1, ih2.2.1, ih2.2.2.1, by simp [ih2.2.2.2]⟩

/-- Witness for C3: two disconnected ticks on a concrete state. -/
theorem disconnected_ticks_frame_witness :
    (runEvents 7 (List.replicate 2 .tick) sampleDisconnectedState).1.batt =
      sampleDisconnectedState.batt ∧
    (runEvents 7 (List.replicate 2 .tick) sampleDisconnectedState).1.hrmCounter =
      sampleDisconnectedState.hrmCounter ∧
    (runEvents 7 (List.replicate 2 .tick) sampleDisconnectedState).1.gatt =
      sampleDisconnectedState.gatt ∧
    (runEvents 7 (List.replicate 2 .tick) sampleDisconnectedState).2 = [] :=
  disconnected_ticks_frame 7 2 sampleDisconnectedState rfl

/-- Claim C5: a disconnection event delivered while connected runs the
on-disconnect callback, whose trace ends in exactly one
startAdvertising call, and drops the connected flag: disconnection
always triggers automatic re-advertising, with no backoff. -/
theorem disconnect_one_restart (hrh : Nat) (s : SysState)
    (_hc : s.connected = true) :
    (handleEvent hrh .disconnect s).2 = disconnectionCallback ∧
    disconnectionCallback.count .startAdvertising = 1 ∧
    disconnectionCallback.getLast? = some .startAdvertising ∧
    (handleEvent hrh .disconnect s).1.connected = false :=
  ⟨rfl, by decide, by decide, rfl⟩

/-- Witness for C5 on a concrete connected state. -/
theorem disconnect_one_restart_witness :
    (handleEvent 7 .disconnect sampleConnectedState).2 = disconnectionCallback ∧
    disconnectionCallback.count .startAdvertising = 1 ∧
    disconnectionCallback.getLast? = some .startAdvertising ∧
    (handleEvent 7 .disconnect sampleConnectedState).1.connected = false :=
  disconnect_one_restart 7 sampleConnectedState rfl

/-- Claim C6: an advertising-timeout event invokes the timeout
callback exactly once — its trace is the single DEBUG line — and the
callback issues no startAdvertising call and changes no state. -/
theorem timeout_no_restart (hrh : Nat) (s : SysState) :
    (handleEvent hrh .advTimeout s).1 = s ∧
    (handleEvent hrh .advTimeout s).2 = timeoutCallback ∧
    timeoutCallback.count .startAdvertising = 0 :=
  ⟨rfl, rfl, by decide⟩

/-- Claim C7: the notifications-enabled and notifications-disabled
callbacks only log — dispatched by comparing the event handle with the
heart-rate-measurement handle — and never change the counters or any
stored value; the tick handler is independent of the subscription
flag, and whenever connected it issues its two characteristic updates
regardless of that flag. -/
theorem notifications_never_gate_updates (hrh h : Nat) (s : SysState) (b : Bool) :
    (handleEvent hrh (.notifyEnabled h) s).1.batt = s.batt ∧
    (handleEvent hrh (.notifyEnabled h) s).1.hrmCounter = s.hrmCounter ∧
    (handleEvent hrh (.notifyEnabled h) s).1.gatt = s.gatt ∧
    (handleEvent hrh (.notifyEnabled h) s).2 =
      (if h = hrh then [.log .heartRateNotifyEnabled] else []) ∧
    (handleEvent hrh (.notifyDisabled h) s).1.batt = s.batt ∧
    (handleEvent hrh (.notifyDisabled h) s).1.hrmCounter = s.hrmCounter ∧
    (handleEvent hrh (.notifyDisabled h) s).1.gatt = s.gatt ∧
    (handleEvent hrh (.notifyDisabled h) s).2 =
      (if h = hrh then [.log .heartRateNotifyDisabled] else []) ∧
    (periodicCallback { s with hrmNotify := b }).1 =
      { (periodicCallback s).1 with hrmNotify := b } ∧
    (periodicCallback { s with hrmNotify := b }).2 = (periodicCallback s).2 ∧
    (s.connected = true →
      (periodicCallback s).2.countP StackAction.isCharUpdate = 2) := by
  obtain ⟨led, batt, hrm, conn, notif, gatt⟩ := s
  refine ⟨rfl, rfl, rfl, rfl, rfl, rfl, rfl, rfl, ?_, ?_, ?_⟩ <;>
    cases conn <;>
    simp [periodicCallback, StackAction.isCharUpdate]

/-- Witness for C7 on a concrete connected state. -/
theorem notifications_never_gate_updates_witness :
    (handleEvent 7 (.notifyEnabled 7) sampleConnectedState).1.batt =
      sampleConnectedState.batt ∧
    (handleEvent 7 (.notifyEnabled 7) sampleConnectedState).1.hrmCounter =
      sampleConnectedState.hrmCounter ∧
    (handleEvent 7 (.notifyEnabled 7) sampleConnectedState).1.gatt =
      sampleConnectedState.gatt ∧
    (handleEvent 7 (.notifyEnabled 7) sampleConnectedState).2 =
      (if 7 = 7 then [.log .heartRateNotifyEnabled] else []) ∧
    (handleEvent 7 (.notifyDisabled 7) sampleConnectedState).1.batt =
      sampleConnectedState.batt ∧
    (handleEvent 7 (.notifyDisabled 7) sampleConnectedState).1.hrmCounter =
      sampleConnectedState.hrmCounter ∧
    (handleEvent 7 (.notifyDisabled 7) sampleConnectedState).1.gatt =
      sampleConnectedState.gatt ∧
    (handleEvent 7 (.notifyDisabled 7) sampleConnectedState).2 =
      (if 7 = 7 then [.log .heartRateNotifyDisabled] else []) ∧
    (periodicCallback { sampleConnectedState with hrmNotify := true }).1 =
      { (periodicCallback sampleConnectedState).1 with hrmNotify := true } ∧
    (periodicCallback { sampleConnectedState with hrmNotify := true }).2 =
      (periodicCallback sampleConnectedState).2 ∧
    (sampleConnectedState.connected = true →
      (periodicCallback sampleConnectedState).2.countP StackAction.isCharUpdate = 2) :=
  notifications_never_gate_updates 7 7 sampleConnectedState true

/-- Number of tick events in an event sequence. -/
def tickCount : List Event → Nat
  | [] => 0
  | .tick :: es => tickCount es + 1
  | _ :: es => tickCount es

theorem periodicCallback_led (s : SysState) :
    (periodicCallback s).1.led1 = !s.led1 := by
  obtain ⟨led, batt, hrm, conn, notif, gatt⟩ := s
  cases conn <;> simp [periodicCallback]

/-- Claim C9: across any event sequence, only ticks touch the LED and
every tick toggles it unconditionally: the LED after the run is the
initial LED flipped once per tick, however many of those ticks were
connected and whatever other events are interleaved. -/
theorem led_toggles_every_tick (hrh : Nat) (es : List Event) (s : SysState) :
    (runEvents hrh es s).1.led1 =
      (if tickCount es % 2 = 1 then !s.led1 else s.led1) := by
  induction es generalizing s with
  | nil => simp [runEvents, tickCount]
  | cons e es ih =>
    cases e with
    | tick =>
      have hled := periodicCallback_led s
      simp only [runEvents, handleEvent, tickCount]
      rw [ih, hled]
      by_cases hp : tickCount es % 2 = 1
      · have hp2 : (tickCount es + 1) % 2 ≠ 1 := by omega
        simp [hp, hp2]
      · have hp2 : (tickCount es + 1) % 2 = 1 := by omega
        simp [hp, hp2]
    | connect => simp only [runEvents, handleEvent, tickCount]; rw [ih]
    | disconnect => simp only [runEvents, handleEvent, tickCount]; rw [ih]
    | advTimeout => simp only [runEvents, handleEvent, tickCount]; rw [ih]
    | notifyEnabled h => simp only [runEvents, handleEvent, tickCount]; rw [ih]
    | notifyDisabled h => simp only [runEvents, handleEvent, tickCount]; rw [ih]

/-- True on characteristic-update requests targeting the
body-sensor-location characteristic. -/
def StackAction.isHrmLocationUpdate : StackAction → Bool
  | .updateChar .hrmLocation _ => true
  | _ => false

theorem handleEvent_hrmLocation_frame (hrh : Nat) (e : Event) (s : SysState) :
    (handleEvent hrh e s).1.gatt.hrmLocationVal = s.gatt.hrmLocationVal ∧
    (handleEvent hrh e s).2.countP StackAction.isHrmLocationUpdate = 0 := by
  cases e with
  | tick =>
    obtain ⟨led, batt, hrm, conn, notif, gatt⟩ := s
    cases conn <;>
      simp [handleEvent, periodicCallback, GattTable.write,
        StackAction.isHrmLocationUpdate]
  | connect => simp [handleEvent, connectionCallback, StackAction.isHrmLocationUpdate]
  | disconnect =>
    simp [handleEvent, disconnectionCallback, StackAction.isHrmLocationUpdate]
  | advTimeout => simp [handleEvent, timeoutCallback, StackAction.isHrmLocationUpdate]
  | notifyEnabled h =>
    refine ⟨rfl, ?_⟩
    simp only [handleEvent, updatesEnabledCallback]
    split <;> simp [StackAction.isHrmLocationUpdate]
  | notifyDisabled h =>
    refine ⟨rfl, ?_⟩
    simp only [handleEvent, updatesDisabledCallback]
    split <;> simp [StackAction.isHrmLocationUpdate]

theorem runEvents_hrmLocation_frame (hrh : Nat) (es : List Event) :
    ∀ s : SysState,
      (runEvents hrh es s).1.gatt.hrmLocationVal = s.gatt.hrmLocationVal ∧
      (runEvents hrh es s).2.countP StackAction.isHrmLocationUpdate = 0 := by
  induction es with
  | nil => intro s; simp [runEvents]
  | cons e es ih =>
    intro s
    obtain ⟨h1, h2⟩ := handleEvent_hrmLocation_frame hrh e s
    obtain ⟨h3, h4⟩ := ih (handleEvent hrh e s).1
    simp only [runEvents, List.countP_append]
    exact ⟨h3.trans h1, by omega⟩

/-- Claim C10: main writes the body-sensor-location characteristic
exactly once, with the single byte 0x03 (finger); afterwards no event
handler — tick, connection, disconnection, timeout or
notification-subscription — ever changes its stored value or issues
another update request for it. -/
theorem hrmLocation_written_once (hrh : Nat) (es : List Event) (s : SysState) :
    mainSetupCalls.filter SetupCall.isHrmLocationWrite =
      [SetupCall.updateCharacteristicValue CharId.hrmLocation [3]] ∧
    (runEvents hrh es s).1.gatt.hrmLocationVal = s.gatt.hrmLocationVal ∧
    (runEvents hrh es s).2.countP StackAction.isHrmLocationUpdate = 0 :=
  ⟨by decide, (runEvents_hrmLocation_frame hrh es s).1,
    (runEvents_hrmLocation_frame hrh es s).2⟩

/-- Claim C4 is false as stated: in main the advertising payload is
accumulated (lines 151-153) and advertising started (line 157) before
any addService call (lines 161, 166, 172), so it is not the case that
every service is bound to the stack before the payload is configured
and advertising starts. -/
theorem services_not_bound_before_advertising :
    ¬ (allPrecede SetupCall.isAddService SetupCall.isPayloadConfig mainSetupCalls = true ∧
       allPrecede SetupCall.isAddService SetupCall.isStartAdv mainSetupCalls = true) := by
  decide

/-- Claim C4 amended: at startup the advertising payload is fully
configured and advertising is started before any service is bound to
the stack; every addService call follows the last
accumulateAdvertisingPayload call and the startAdvertising call. -/
theorem advertising_configured_before_services_bound :
    allPrecede SetupCall.isPayloadConfig SetupCall.isAddService mainSetupCalls = true ∧
    allPrecede SetupCall.isStartAdv SetupCall.isAddService mainSetupCalls = true := by
  decide

/-- Claim C8: the startup sequence issues exactly one addService call
per service, in the fixed order device-information, battery,
heart-rate. -/
theorem addService_once_in_order :
    mainSetupCalls.filterMap SetupCall.serviceOf =
      [ServiceId.deviceInformation, ServiceId.battery, ServiceId.heartRate] ∧
    mainSetupCalls.countP SetupCall.isAddService = 3 := by
  decide

end BLEHeartRate
